import Mathlib

/-!
Verification of the domain-randomization parameter controller of
`ungraspable/robosuite_env/base_env.py` (class `BaseEnv`).

The embedding models the randomizable-quantity state held on the environment
instance, the occlusion-dependent size/clearance profile installation
(`init_box_size`), the per-reset scene configuration (`_load_model`) and the
gripper-friction setup (`_load_robots`).  Randomness is made explicit: every
`np.random.uniform(lo, hi)` call is modelled as `lo + (hi - lo) * u` for a
unit draw `u` (numpy draws `u` uniformly in `[0, 1)` and never validates the
order of `lo` and `hi`), and `np.random.randint(lo, hi)` is modelled as a
function that returns `lo + k % (hi - lo)` for a draw `k` when `lo < hi` and
raises (returns `Except.error`) otherwise, exactly as numpy does.
All reals are represented by `ℚ`; every float literal in the source is exact
in decimal, so this is faithful.
-/

namespace Ungraspable

/-- A 3-vector, standing for the numpy arrays of length 3 used by the source
(`table_full_size`, `table_friction`, `table_offset`, gripper friction).
Index 0 is `x`, index 1 is `y`, index 2 is `z`. -/
structure Vec3 where
  x : ℚ
  y : ℚ
  z : ℚ
  deriving DecidableEq

/-- The instance fields of `BaseEnv` that the parameter controller reads and
writes: the `(min, max, current)` triples of every randomizable quantity plus
the table arrays and the occlusion settings.  Field names follow the source. -/
structure EnvState where
  occlusion_type : String
  use_random_occlusion : Bool
  table_full_size : Vec3
  table_friction : Vec3
  table_offset : Vec3
  object_initial_pose_y_min : ℚ
  object_initial_pose_y_max : ℚ
  table_offset_x_min : ℚ
  table_offset_x_max : ℚ
  table_offset_z_min : ℚ
  table_offset_z_max : ℚ
  object_size_x_min : ℚ
  object_size_x_max : ℚ
  object_size_x_val : ℚ
  object_size_y_min : ℚ
  object_size_y_max : ℚ
  object_size_y_val : ℚ
  object_size_z_min : ℚ
  object_size_z_max : ℚ
  object_size_z_val : ℚ
  object_to_wall_dist_min : ℚ
  object_to_wall_dist_max : ℚ
  object_density_min : ℤ
  object_density_max : ℤ
  object_density_val : ℤ
  table_friction_min : ℚ
  table_friction_max : ℚ
  table_friction_val : ℚ
  gripper_friction_min : ℚ
  gripper_friction_max : ℚ
  gripper_friction_val : ℚ
  controller_max_translation_min : ℚ
  controller_max_translation_max : ℚ
  controller_max_rotation_min : ℚ
  controller_max_rotation_max : ℚ
  deriving DecidableEq

/-- The active controller configuration dictionary.  The two keys the source
probes for (`max_translation`, `max_rotation`) are modelled as optional
fields (`none` = key absent); all remaining entries are kept opaque in
`other` so that "the rest of the configuration is unchanged" is statable. -/
structure ControllerConfig where
  max_translation : Option ℚ
  max_rotation : Option ℚ
  other : List (String × ℚ)
  deriving DecidableEq

/-- The `BoxObject` constructor arguments that matter to the controller:
since `size_min == size_max` in the source, the object's size is the shared
value `[x_val/2, y_val/2, z_val/2]`. -/
structure BoxObj where
  size : Vec3
  density : ℤ
  material : String
  deriving DecidableEq

/-- The `UniformRandomSampler` constructor arguments built in `_load_model`. -/
structure UniformRandomSampler where
  x_range : ℚ × ℚ
  y_range : ℚ × ℚ
  rotation : ℚ
  ensure_object_boundary_in_range : Bool
  ensure_valid_placement : Bool
  reference_pos : Vec3
  z_offset : ℚ
  deriving DecidableEq

/-- One episode's worth of raw random draws, one per `np.random.*` call in
`_load_model` / `_load_robots`: each `u` field is a unit draw in `[0, 1)`
feeding `np.random.uniform`, `occ_choice` indexes `np.random.choice` over the
three occlusion names, and `k_density` feeds `np.random.randint`. -/
structure Draws where
  occ_choice : Fin 3
  u_max_translation : ℚ
  u_max_rotation : ℚ
  u_table_friction : ℚ
  u_table_offset_x : ℚ
  u_table_offset_z : ℚ
  u_size_x : ℚ
  u_size_y : ℚ
  u_size_z : ℚ
  k_density : ℕ
  u_gripper_friction : ℚ
  deriving DecidableEq

/-- Model of `np.random.uniform(lo, hi)` with the unit draw `u` explicit:
numpy computes `lo + (hi - lo) * u` and performs no order validation. -/
def np_uniform (lo hi u : ℚ) : ℚ := lo + (hi - lo) * u

/-- Model of `np.random.randint(lo, hiExcl)` with the raw draw `k` explicit: numpy
returns an integer in `[lo, hiExcl)` when `lo < hiExcl` and raises
`ValueError` otherwise. -/
def np_randint (lo hiExcl : ℤ) (k : ℕ) : Except String ℤ :=
  if lo < hiExcl then .ok (lo + (k : ℤ) % (hiExcl - lo)) else .error "low >= high"

/-- The list handed to `np.random.choice` in `_load_model`. -/
def occlusion_choices : List String := ["ground", "side", "none"]

/-- The occlusion-resolution step at the top of `_load_model`: when
`use_random` holds, `occlusion_type` is redrawn by `np.random.choice` over
the three names (modelled by the uniform index `c`); otherwise it stays as
requested. -/
def resolve_occlusion (requested : String) (use_random : Bool) (c : Fin 3) : String :=
  if use_random then occlusion_choices.get c else requested

/-- Model of `BaseEnv.init_box_size`: installs the occlusion-dependent size and
wall-clearance ranges in place. -/
def init_box_size (s : EnvState) : EnvState :=
  if s.occlusion_type = "ground" then
    { s with
      object_size_x_min := 0.15, object_size_x_max := 0.15, object_size_x_val := 0.15,
      object_size_y_min := 0.20, object_size_y_max := 0.20, object_size_y_val := 0.20,
      object_size_z_min := 0.05, object_size_z_max := 0.05, object_size_z_val := 0.05,
      object_to_wall_dist_min := 0, object_to_wall_dist_max := 0 }
  else
    let s := { s with
      object_size_x_min := 0.06, object_size_x_max := 0.06, object_size_x_val := 0.06,
      object_size_y_min := 0.20, object_size_y_max := 0.20, object_size_y_val := 0.20,
      object_size_z_min := 0.06, object_size_z_max := 0.06, object_size_z_val := 0.06 }
    if s.occlusion_type = "side" then
      { s with object_to_wall_dist_min := 0, object_to_wall_dist_max := 0 }
    else
      { s with object_to_wall_dist_min := 0.05, object_to_wall_dist_max := 0.1 }

/-- Model of `BaseEnv.__init__` restricted to the controller state: every min/max/val
field is initialized to the fixed constants of the source, and
`init_box_size` is invoked exactly as the constructor does.  The source
creates the size fields inside `init_box_size`; the placeholder zeros here
are overwritten by it on every path. -/
def BaseEnv_init (occlusion_type : String) (use_random_occlusion : Bool)
    (table_full_size table_friction table_offset : Vec3) : EnvState :=
  init_box_size
    { occlusion_type := occlusion_type
      use_random_occlusion := use_random_occlusion
      table_full_size := table_full_size
      table_friction := table_friction
      table_offset := table_offset
      object_initial_pose_y_min := 0
      object_initial_pose_y_max := 0
      table_offset_x_min := 0.5
      table_offset_x_max := 0.5
      table_offset_z_min := 0.065
      table_offset_z_max := 0.065
      object_size_x_min := 0
      object_size_x_max := 0
      object_size_x_val := 0
      object_size_y_min := 0
      object_size_y_max := 0
      object_size_y_val := 0
      object_size_z_min := 0
      object_size_z_max := 0
      object_size_z_val := 0
      object_to_wall_dist_min := 0
      object_to_wall_dist_max := 0
      object_density_min := 86
      object_density_max := 86
      object_density_val := 86
      table_friction_min := 0.3
      table_friction_max := 0.3
      table_friction_val := 0.3
      gripper_friction_min := 3
      gripper_friction_max := 3
      gripper_friction_val := 3
      controller_max_translation_min := 0.03
      controller_max_translation_max := 0.03
      controller_max_rotation_min := 0.2
      controller_max_rotation_max := 0.2 }

/-- The occlusion redraw assignment at the top of `_load_model`. -/
def resolve_step (s : EnvState) (d : Draws) : EnvState :=
  { s with occlusion_type := resolve_occlusion s.occlusion_type s.use_random_occlusion d.occ_choice }

/-- The conditional controller-limit writes of `_load_model`: each limit is
sampled and written only when the corresponding key is present in the
controller configuration. -/
def apply_controller (cc : ControllerConfig) (s : EnvState) (d : Draws) : ControllerConfig :=
  let vt := np_uniform s.controller_max_translation_min s.controller_max_translation_max
    d.u_max_translation
  let vr := np_uniform s.controller_max_rotation_min s.controller_max_rotation_max
    d.u_max_rotation
  let cc1 :=
    if cc.max_translation.isSome then { cc with max_translation := some vt } else cc
  if cc1.max_rotation.isSome then { cc1 with max_rotation := some vr } else cc1

/-- The table-workspace sampling of `_load_model`: draws `table_friction_val`
into `table_friction[0]` and redraws `table_offset[0]` and `table_offset[2]`,
leaving `table_friction[1]`, `table_friction[2]` and `table_offset[1]`
untouched. -/
def table_step (s : EnvState) (d : Draws) : EnvState :=
  let tfv := np_uniform s.table_friction_min s.table_friction_max d.u_table_friction
  let tox := np_uniform s.table_offset_x_min s.table_offset_x_max d.u_table_offset_x
  let toz := np_uniform s.table_offset_z_min s.table_offset_z_max d.u_table_offset_z
  { s with
    table_friction_val := tfv
    table_friction := { s.table_friction with x := tfv }
    table_offset := { s.table_offset with x := tox, z := toz } }

/-- The object-size sampling of `_load_model`. -/
def size_step (s : EnvState) (d : Draws) : EnvState :=
  { s with
    object_size_x_val := np_uniform s.object_size_x_min s.object_size_x_max d.u_size_x
    object_size_y_val := np_uniform s.object_size_y_min s.object_size_y_max d.u_size_y
    object_size_z_val := np_uniform s.object_size_z_min s.object_size_z_max d.u_size_z }

/-- Stores the density drawn by `np.random.randint`. -/
def density_step (s : EnvState) (dens : ℤ) : EnvState :=
  { s with object_density_val := dens }

/-- The `BoxObject` built by `_load_model`: `size_min == size_max ==
[x_val/2, y_val/2, z_val/2]`, red-wood material in ground occlusion and
blue-wood material otherwise. -/
def make_cube (s : EnvState) : BoxObj :=
  { size := ⟨s.object_size_x_val / 2, s.object_size_y_val / 2, s.object_size_z_val / 2⟩
    density := s.object_density_val
    material := if s.occlusion_type = "ground" then "redwood_mat" else "bluewood_mat" }

/-- The `UniformRandomSampler` built by `_load_model`:
`xpos_max = table_full_size[0]/2 - cube.size[0]`, then
`x_range = [xpos_max - object_to_wall_dist_max, xpos_max - object_to_wall_dist_min]`,
`y_range` from the configured lateral pose bounds, zero rotation, both
placement-guarantee flags disabled. -/
def make_sampler (s : EnvState) (cube : BoxObj) : UniformRandomSampler :=
  let xpos_max := s.table_full_size.x / 2 - cube.size.x
  { x_range := (xpos_max - s.object_to_wall_dist_max, xpos_max - s.object_to_wall_dist_min)
    y_range := (s.object_initial_pose_y_min, s.object_initial_pose_y_max)
    rotation := 0
    ensure_object_boundary_in_range := false
    ensure_valid_placement := false
    reference_pos := s.table_offset
    z_offset := 0 }

/-- Everything `_load_model` produces. -/
structure LoadModelOut where
  state : EnvState
  controller_config : ControllerConfig
  cube : BoxObj
  sampler : UniformRandomSampler
  deriving DecidableEq

/-- The pure part of `_load_model`, given the density value that
`np.random.randint` returned. -/
def load_model_core (s : EnvState) (cc : ControllerConfig) (d : Draws) (dens : ℤ) :
    LoadModelOut :=
  let s2 := init_box_size (resolve_step s d)
  let s4 := density_step (size_step (table_step s2 d) d) dens
  let cube := make_cube s4
  { state := s4
    controller_config := apply_controller cc s2 d
    cube := cube
    sampler := make_sampler s4 cube }

/-- Model of `BaseEnv._load_model`: resolves the occlusion mode, reinstalls the
dependent ranges, conditionally samples the controller limits, samples the
table friction/offset, object size and density, and builds the cube and the
placement sampler.  The only call that can raise is `np.random.randint` on
the density range (`init_box_size` and `resolve_step` never touch the
density fields, so its arguments equal the configured density range). -/
def load_model (s : EnvState) (cc : ControllerConfig) (d : Draws) :
    Except String LoadModelOut :=
  let s2 := init_box_size (resolve_step s d)
  (np_randint s2.object_density_min (s2.object_density_max + 1) d.k_density).map
    (load_model_core s cc d)

/-- Model of `BaseEnv._load_robots` restricted to the gripper friction: starts from
the constant vector `[3, 0.015, 0.0003]`, then overwrites component 0 with
the sampled `gripper_friction_val`. -/
def load_robots (s : EnvState) (u : ℚ) : EnvState × Vec3 :=
  let gripper_friction : Vec3 := ⟨3, 0.015, 0.0003⟩
  let v := np_uniform s.gripper_friction_min s.gripper_friction_max u
  ({ s with gripper_friction_val := v }, { gripper_friction with x := v })

/-- The placement x-range as the SPEC words it (a refinement target, not a
translation of the source): lower bound from the clearance-range maximum,
upper bound from the per-episode sampled clearance value. -/
def x_range_spec (xpos_max clearanceRangeMax sampledClearance : ℚ) : ℚ × ℚ :=
  (xpos_max - clearanceRangeMax, xpos_max - sampledClearance)

/-- All unit draws of an episode lie in numpy's `[0, 1)` interval (stated
with the closed upper end, which only weakens the hypotheses of the theorems
using it). -/
def DrawsInUnit (d : Draws) : Prop :=
  0 ≤ d.u_max_translation ∧ d.u_max_translation ≤ 1 ∧
  0 ≤ d.u_max_rotation ∧ d.u_max_rotation ≤ 1 ∧
  0 ≤ d.u_table_friction ∧ d.u_table_friction ≤ 1 ∧
  0 ≤ d.u_table_offset_x ∧ d.u_table_offset_x ≤ 1 ∧
  0 ≤ d.u_table_offset_z ∧ d.u_table_offset_z ≤ 1 ∧
  0 ≤ d.u_size_x ∧ d.u_size_x ≤ 1 ∧
  0 ≤ d.u_size_y ∧ d.u_size_y ≤ 1 ∧
  0 ≤ d.u_size_z ∧ d.u_size_z ≤ 1 ∧
  0 ≤ d.u_gripper_friction ∧ d.u_gripper_friction ≤ 1

instance (d : Draws) : Decidable (DrawsInUnit d) := by
  unfold DrawsInUnit; infer_instance

/-- Default constructor arguments of `BaseEnv` (table geometry, friction,
offset). -/
def default_full_size : Vec3 := ⟨0.45, 0.54, 0.107⟩

def default_friction : Vec3 := ⟨0.3, 0.005, 0.0001⟩

def default_offset : Vec3 := ⟨0.5, 0, 0.065⟩

/-- A `BaseEnv` constructed with defaults and fixed ground occlusion. -/
def env_ground : EnvState :=
  BaseEnv_init "ground" false default_full_size default_friction default_offset

/-- A `BaseEnv` constructed with defaults and fixed no-occlusion mode. -/
def env_none : EnvState :=
  BaseEnv_init "none" false default_full_size default_friction default_offset

/-- A default environment whose table-friction range was externally
configured inverted (`min > max`), as an adaptive-domain-randomization
wrapper may do by writing the public min/max fields. -/
def env_inverted : EnvState :=
  { env_ground with table_friction_min := 0.4, table_friction_max := 0.3 }

/-- A concrete controller configuration declaring `max_translation` but not
`max_rotation`. -/
def cc0 : ControllerConfig :=
  { max_translation := some 0.03, max_rotation := none, other := [("kp", 150)] }

/-- A concrete controller configuration declaring neither tunable limit. -/
def cc_absent : ControllerConfig :=
  { max_translation := none, max_rotation := none, other := [("kp", 150)] }

/-- A concrete bundle of draws, all unit draws at 1/2. -/
def draws0 : Draws :=
  { occ_choice := 0
    u_max_translation := 1/2
    u_max_rotation := 1/2
    u_table_friction := 1/2
    u_table_offset_x := 1/2
    u_table_offset_z := 1/2
    u_size_x := 1/2
    u_size_y := 1/2
    u_size_z := 1/2
    k_density := 0
    u_gripper_friction := 1/2 }

/-! ## Helper lemmas -/

lemma np_uniform_self (lo u : ℚ) : np_uniform lo lo u = lo := by
  simp [np_uniform]

lemma np_uniform_mem (lo hi u : ℚ) (hle : lo ≤ hi) (h0 : 0 ≤ u) (h1 : u ≤ 1) :
    lo ≤ np_uniform lo hi u ∧ np_uniform lo hi u ≤ hi := by
  unfold np_uniform
  constructor
  · nlinarith
  · nlinarith

lemma np_randint_ok_iff (lo hiExcl : ℤ) (k : ℕ) :
    (∃ v, np_randint lo hiExcl k = .ok v) ↔ lo < hiExcl := by
  unfold np_randint
  split_ifs with hlt <;> simp [hlt]

lemma np_randint_mem (lo hiExcl : ℤ) (k : ℕ) (v : ℤ)
    (h : np_randint lo hiExcl k = .ok v) : lo ≤ v ∧ v < hiExcl := by
  unfold np_randint at h
  split_ifs at h with hlt
  · simp only [Except.ok.injEq] at h
    subst h
    have hpos : (0 : ℤ) < hiExcl - lo := by omega
    have h1 : 0 ≤ (k : ℤ) % (hiExcl - lo) := Int.emod_nonneg _ (by omega)
    have h2 : (k : ℤ) % (hiExcl - lo) < hiExcl - lo := Int.emod_lt_of_pos _ hpos
    omega

lemma np_randint_self (lo : ℤ) (k : ℕ) : np_randint lo (lo + 1) k = .ok lo := by
  simp [np_randint]

@[simp] lemma resolve_step_table_full_size (s : EnvState) (d : Draws) :
    (resolve_step s d).table_full_size = s.table_full_size := rfl

@[simp] lemma resolve_step_table_friction (s : EnvState) (d : Draws) :
    (resolve_step s d).table_friction = s.table_friction := rfl

@[simp] lemma resolve_step_table_offset (s : EnvState) (d : Draws) :
    (resolve_step s d).table_offset = s.table_offset := rfl

@[simp] lemma resolve_step_density_min (s : EnvState) (d : Draws) :
    (resolve_step s d).object_density_min = s.object_density_min := rfl

@[simp] lemma resolve_step_density_max (s : EnvState) (d : Draws) :
    (resolve_step s d).object_density_max = s.object_density_max := rfl

@[simp] lemma resolve_step_table_friction_min (s : EnvState) (d : Draws) :
    (resolve_step s d).table_friction_min = s.table_friction_min := rfl

@[simp] lemma resolve_step_table_friction_max (s : EnvState) (d : Draws) :
    (resolve_step s d).table_friction_max = s.table_friction_max := rfl

@[simp] lemma resolve_step_table_offset_x_min (s : EnvState) (d : Draws) :
    (resolve_step s d).table_offset_x_min = s.table_offset_x_min := rfl

@[simp] lemma resolve_step_table_offset_x_max (s : EnvState) (d : Draws) :
    (resolve_step s d).table_offset_x_max = s.table_offset_x_max := rfl

@[simp] lemma resolve_step_table_offset_z_min (s : EnvState) (d : Draws) :
    (resolve_step s d).table_offset_z_min = s.table_offset_z_min := rfl

@[simp] lemma resolve_step_table_offset_z_max (s : EnvState) (d : Draws) :
    (resolve_step s d).table_offset_z_max = s.table_offset_z_max := rfl

@[simp] lemma resolve_step_ctrl_t_min (s : EnvState) (d : Draws) :
    (resolve_step s d).controller_max_translation_min = s.controller_max_translation_min := rfl

@[simp] lemma resolve_step_ctrl_t_max (s : EnvState) (d : Draws) :
    (resolve_step s d).controller_max_translation_max = s.controller_max_translation_max := rfl

@[simp] lemma resolve_step_ctrl_r_min (s : EnvState) (d : Draws) :
    (resolve_step s d).controller_max_rotation_min = s.controller_max_rotation_min := rfl

@[simp] lemma resolve_step_ctrl_r_max (s : EnvState) (d : Draws) :
    (resolve_step s d).controller_max_rotation_max = s.controller_max_rotation_max := rfl

@[simp] lemma resolve_step_pose_y_min (s : EnvState) (d : Draws) :
    (resolve_step s d).object_initial_pose_y_min = s.object_initial_pose_y_min := rfl

@[simp] lemma resolve_step_pose_y_max (s : EnvState) (d : Draws) :
    (resolve_step s d).object_initial_pose_y_max = s.object_initial_pose_y_max := rfl

@[simp] lemma init_box_size_table_full_size (s : EnvState) :
    (init_box_size s).table_full_size = s.table_full_size := by
  simp only [init_box_size]; split_ifs <;> rfl

@[simp] lemma init_box_size_table_friction (s : EnvState) :
    (init_box_size s).table_friction = s.table_friction := by
  simp only [init_box_size]; split_ifs <;> rfl

@[simp] lemma init_box_size_table_offset (s : EnvState) :
    (init_box_size s).table_offset = s.table_offset := by
  simp only [init_box_size]; split_ifs <;> rfl

@[simp] lemma init_box_size_occlusion_type (s : EnvState) :
    (init_box_size s).occlusion_type = s.occlusion_type := by
  simp only [init_box_size]; split_ifs <;> rfl

@[simp] lemma init_box_size_density_min (s : EnvState) :
    (init_box_size s).object_density_min = s.object_density_min := by
  simp only [init_box_size]; split_ifs <;> rfl

@[simp] lemma init_box_size_density_max (s : EnvState) :
    (init_box_size s).object_density_max = s.object_density_max := by
  simp only [init_box_size]; split_ifs <;> rfl

@[simp] lemma init_box_size_table_friction_min (s : EnvState) :
    (init_box_size s).table_friction_min = s.table_friction_min := by
  simp only [init_box_size]; split_ifs <;> rfl

@[simp] lemma init_box_size_table_friction_max (s : EnvState) :
    (init_box_size s).table_friction_max = s.table_friction_max := by
  simp only [init_box_size]; split_ifs <;> rfl

@[simp] lemma init_box_size_table_offset_x_min (s : EnvState) :
    (init_box_size s).table_offset_x_min = s.table_offset_x_min := by
  simp only [init_box_size]; split_ifs <;> rfl

@[simp] lemma init_box_size_table_offset_x_max (s : EnvState) :
    (init_box_size s).table_offset_x_max = s.table_offset_x_max := by
  simp only [init_box_size]; split_ifs <;> rfl

@[simp] lemma init_box_size_table_offset_z_min (s : EnvState) :
    (init_box_size s).table_offset_z_min = s.table_offset_z_min := by
  simp only [init_box_size]; split_ifs <;> rfl

@[simp] lemma init_box_size_table_offset_z_max (s : EnvState) :
    (init_box_size s).table_offset_z_max = s.table_offset_z_max := by
  simp only [init_box_size]; split_ifs <;> rfl

@[simp] lemma init_box_size_ctrl_t_min (s : EnvState) :
    (init_box_size s).controller_max_translation_min = s.controller_max_translation_min := by
  simp only [init_box_size]; split_ifs <;> rfl

@[simp] lemma init_box_size_ctrl_t_max (s : EnvState) :
    (init_box_size s).controller_max_translation_max = s.controller_max_translation_max := by
  simp only [init_box_size]; split_ifs <;> rfl

@[simp] lemma init_box_size_ctrl_r_min (s : EnvState) :
    (init_box_size s).controller_max_rotation_min = s.controller_max_rotation_min := by
  simp only [init_box_size]; split_ifs <;> rfl

@[simp] lemma init_box_size_ctrl_r_max (s : EnvState) :
    (init_box_size s).controller_max_rotation_max = s.controller_max_rotation_max := by
  simp only [init_box_size]; split_ifs <;> rfl

@[simp] lemma init_box_size_pose_y_min (s : EnvState) :
    (init_box_size s).object_initial_pose_y_min = s.object_initial_pose_y_min := by
  simp only [init_box_size]; split_ifs <;> rfl

@[simp] lemma init_box_size_pose_y_max (s : EnvState) :
    (init_box_size s).object_initial_pose_y_max = s.object_initial_pose_y_max := by
  simp only [init_box_size]; split_ifs <;> rfl

/-- The size ranges that `init_box_size` installs are degenerate
(`min = max`) in every occlusion mode. -/
lemma init_box_size_sizes_degenerate (s : EnvState) :
    (init_box_size s).object_size_x_min = (init_box_size s).object_size_x_max ∧
    (init_box_size s).object_size_y_min = (init_box_size s).object_size_y_max ∧
    (init_box_size s).object_size_z_min = (init_box_size s).object_size_z_max := by
  simp only [init_box_size]; split_ifs <;> norm_num

/-- Success elimination for `_load_model`: a successful run is
`load_model_core` applied to the density returned by `np.random.randint` on
the configured density range. -/
lemma load_model_eq_ok {s : EnvState} {cc : ControllerConfig} {d : Draws} {out : LoadModelOut}
    (h : load_model s cc d = .ok out) :
    ∃ dens : ℤ,
      np_randint s.object_density_min (s.object_density_max + 1) d.k_density = .ok dens ∧
      out = load_model_core s cc d dens := by
  unfold load_model at h
  simp only [init_box_size_density_min, init_box_size_density_max, resolve_step_density_min,
    resolve_step_density_max] at h
  cases hr : np_randint s.object_density_min (s.object_density_max + 1) d.k_density with
  | error e => rw [hr] at h; simp [Except.map] at h
  | ok dens =>
      rw [hr] at h
      simp only [Except.map, Except.ok.injEq] at h
      exact ⟨dens, rfl, h.symm⟩

/-- Lemma: `_load_model` succeeds exactly when the density range is not inverted;
no other quantity's range is ever checked. -/
lemma load_model_ok_exists_iff (s : EnvState) (cc : ControllerConfig) (d : Draws) :
    (∃ out, load_model s cc d = .ok out) ↔
      s.object_density_min ≤ s.object_density_max := by
  unfold load_model
  simp only [init_box_size_density_min, init_box_size_density_max, resolve_step_density_min,
    resolve_step_density_max]
  unfold np_randint
  split_ifs with hlt
  · simp only [Except.map]
    constructor
    · intro _; omega
    · intro _; exact ⟨_, rfl⟩
  · simp only [Except.map]
    constructor
    · rintro ⟨out, h⟩; cases h
    · intro hle; omega

/-- Concrete evaluation: the default ground-occlusion environment loads
successfully, the density draw returning 86. -/
lemma load_model_env_ground_eval :
    load_model env_ground cc0 draws0 = .ok (load_model_core env_ground cc0 draws0 86) := by
  simp [load_model, np_randint, init_box_size, resolve_step, resolve_occlusion, env_ground,
    BaseEnv_init, draws0, Except.map]

/-- Concrete evaluation: the default no-occlusion environment loads
successfully, the density draw returning 86. -/
lemma load_model_env_none_eval :
    load_model env_none cc0 draws0 = .ok (load_model_core env_none cc0 draws0 86) := by
  simp [load_model, np_randint, init_box_size, resolve_step, resolve_occlusion, env_none,
    BaseEnv_init, draws0, Except.map]

/-! ## Claim theorems -/

/-- C9: on every successful `_load_model`, the placement sampler is
constructed with rotation fixed at zero and with both
`ensure_object_boundary_in_range` and `ensure_valid_placement` explicitly
disabled. -/
theorem c9_placement_sampler_flags (s : EnvState) (cc : ControllerConfig) (d : Draws)
    (out : LoadModelOut) (h : load_model s cc d = .ok out) :
    out.sampler.rotation = 0 ∧
    out.sampler.ensure_object_boundary_in_range = false ∧
    out.sampler.ensure_valid_placement = false := by
  obtain ⟨dens, -, rfl⟩ := load_model_eq_ok h
  simp [load_model_core, make_sampler]

/-- C9 witness: the sampler of a concrete default ground-occlusion episode
has zero rotation and both placement-guarantee flags disabled. -/
theorem c9_witness :
    (load_model_core env_ground cc0 draws0 86).sampler.rotation = 0 ∧
    (load_model_core env_ground cc0 draws0 86).sampler.ensure_object_boundary_in_range = false ∧
    (load_model_core env_ground cc0 draws0 86).sampler.ensure_valid_placement = false :=
  c9_placement_sampler_flags env_ground cc0 draws0 _ load_model_env_ground_eval

/-- C8: the table-configuration step of `_load_model` samples only the first
table-friction coefficient and the x and z components of the table offset;
the y offset component and the second and third friction coefficients are
returned unchanged. -/
theorem c8_table_partial_update (s : EnvState) (cc : ControllerConfig) (d : Draws)
    (out : LoadModelOut) (h : load_model s cc d = .ok out) :
    out.state.table_friction.x =
      np_uniform s.table_friction_min s.table_friction_max d.u_table_friction ∧
    out.state.table_friction.y = s.table_friction.y ∧
    out.state.table_friction.z = s.table_friction.z ∧
    out.state.table_offset.x =
      np_uniform s.table_offset_x_min s.table_offset_x_max d.u_table_offset_x ∧
    out.state.table_offset.y = s.table_offset.y ∧
    out.state.table_offset.z =
      np_uniform s.table_offset_z_min s.table_offset_z_max d.u_table_offset_z := by
  obtain ⟨dens, -, rfl⟩ := load_model_eq_ok h
  simp [load_model_core, density_step, size_step, table_step]

/-- C8 witness: in a concrete default ground-occlusion episode the sampled
friction coefficient and offsets take the drawn values while the y offset
and the second and third friction coefficients keep their configured
values. -/
theorem c8_witness :
    (load_model_core env_ground cc0 draws0 86).state.table_friction.x =
      np_uniform env_ground.table_friction_min env_ground.table_friction_max
        draws0.u_table_friction ∧
    (load_model_core env_ground cc0 draws0 86).state.table_friction.y =
      env_ground.table_friction.y ∧
    (load_model_core env_ground cc0 draws0 86).state.table_friction.z =
      env_ground.table_friction.z ∧
    (load_model_core env_ground cc0 draws0 86).state.table_offset.x =
      np_uniform env_ground.table_offset_x_min env_ground.table_offset_x_max
        draws0.u_table_offset_x ∧
    (load_model_core env_ground cc0 draws0 86).state.table_offset.y =
      env_ground.table_offset.y ∧
    (load_model_core env_ground cc0 draws0 86).state.table_offset.z =
      np_uniform env_ground.table_offset_z_min env_ground.table_offset_z_max
        draws0.u_table_offset_z :=
  c8_table_partial_update env_ground cc0 draws0 _ load_model_env_ground_eval

/-- C7: the controller max-translation and max-rotation limits are sampled
and written into the controller configuration exactly when the
corresponding field is declared; an absent field is a silent no-op (the
field stays absent, the rest of the configuration is untouched, and no
error can arise from the controller configuration: success of
`_load_model` is independent of it). -/
theorem c7_controller_limit_conditional (s : EnvState) (cc : ControllerConfig) (d : Draws)
    (out : LoadModelOut) (h : load_model s cc d = .ok out) :
    (cc.max_translation.isSome = true →
      out.controller_config.max_translation =
        some (np_uniform s.controller_max_translation_min s.controller_max_translation_max
          d.u_max_translation)) ∧
    (cc.max_translation = none → out.controller_config.max_translation = none) ∧
    (cc.max_rotation.isSome = true →
      out.controller_config.max_rotation =
        some (np_uniform s.controller_max_rotation_min s.controller_max_rotation_max
          d.u_max_rotation)) ∧
    (cc.max_rotation = none → out.controller_config.max_rotation = none) ∧
    out.controller_config.other = cc.other ∧
    (∀ cc2 : ControllerConfig, ∃ out2, load_model s cc2 d = .ok out2) := by
  obtain ⟨dens, hr, rfl⟩ := load_model_eq_ok h
  have hsucc : ∀ cc2 : ControllerConfig, ∃ out2, load_model s cc2 d = .ok out2 := by
    intro cc2
    rw [load_model_ok_exists_iff]
    have := np_randint_mem _ _ _ _ hr
    omega
  rcases hmt : cc.max_translation with - | v <;>
    rcases hmr : cc.max_rotation with - | w <;>
      simp [load_model_core, apply_controller, hmt, hmr, hsucc]

/-- C7 witness: with a concrete configuration declaring `max_translation`
but not `max_rotation`, the former is overwritten with the sampled value,
the latter stays absent, and the remaining entries are unchanged. -/
theorem c7_witness :
    (cc0.max_translation.isSome = true →
      (load_model_core env_ground cc0 draws0 86).controller_config.max_translation =
        some (np_uniform env_ground.controller_max_translation_min
          env_ground.controller_max_translation_max draws0.u_max_translation)) ∧
    (cc0.max_translation = none →
      (load_model_core env_ground cc0 draws0 86).controller_config.max_translation = none) ∧
    (cc0.max_rotation.isSome = true →
      (load_model_core env_ground cc0 draws0 86).controller_config.max_rotation =
        some (np_uniform env_ground.controller_max_rotation_min
          env_ground.controller_max_rotation_max draws0.u_max_rotation)) ∧
    (cc0.max_rotation = none →
      (load_model_core env_ground cc0 draws0 86).controller_config.max_rotation = none) ∧
    (load_model_core env_ground cc0 draws0 86).controller_config.other = cc0.other ∧
    (∀ cc2 : ControllerConfig, ∃ out2, load_model env_ground cc2 draws0 = .ok out2) :=
  c7_controller_limit_conditional env_ground cc0 draws0 _ load_model_env_ground_eval

/-- C1 counterexample: in the default no-occlusion environment (table
footprint x = 0.45, clearance range [0.05, 0.1], cube x half-extent 0.03,
hence xpos_max = 0.45/2 - 0.03), the code's placement x-range is
(0.095, 0.145): its upper bound subtracts the clearance-range MINIMUM.  No
clearance value is sampled by the code at all; had the episode's clearance
been sampled (e.g. the legitimate uniform draw at u = 2/5, giving 0.07),
the spec's formula `[xpos_max - rangeMax, xpos_max - sampledClearance]`
would give (0.095, 0.125), which differs from what the code builds. -/
theorem c1_counterexample :
    env_none.table_full_size.x = 0.45 ∧
    load_model env_none cc0 draws0 = .ok (load_model_core env_none cc0 draws0 86) ∧
    (load_model_core env_none cc0 draws0 86).state.object_to_wall_dist_min = 0.05 ∧
    (load_model_core env_none cc0 draws0 86).state.object_to_wall_dist_max = 0.1 ∧
    (load_model_core env_none cc0 draws0 86).cube.size.x = 0.03 ∧
    np_uniform 0.05 0.1 (2/5) = 0.07 ∧
    (load_model_core env_none cc0 draws0 86).sampler.x_range = (0.095, 0.145) ∧
    x_range_spec (0.45 / 2 - 0.03) 0.1 (np_uniform 0.05 0.1 (2/5)) = (0.095, 0.125) ∧
    (load_model_core env_none cc0 draws0 86).sampler.x_range ≠
      x_range_spec (0.45 / 2 - 0.03) 0.1 (np_uniform 0.05 0.1 (2/5)) := by
  have e1 : (load_model_core env_none cc0 draws0 86).sampler.x_range = (0.095, 0.145) := by
    simp [load_model_core, make_sampler, make_cube, density_step, size_step, table_step,
      init_box_size, resolve_step, resolve_occlusion, env_none, BaseEnv_init, draws0,
      np_uniform, default_full_size, cc0]
    norm_num
  have e2 : x_range_spec (0.45 / 2 - 0.03) 0.1 (np_uniform 0.05 0.1 (2/5))
      = (0.095, 0.125) := by
    norm_num [x_range_spec, np_uniform]
  refine ⟨by simp [env_none, BaseEnv_init, init_box_size, default_full_size],
    load_model_env_none_eval, ?_, ?_, ?_, by norm_num [np_uniform], e1, e2, ?_⟩
  · simp [load_model_core, density_step, size_step, table_step, init_box_size, resolve_step,
      resolve_occlusion, env_none, BaseEnv_init, draws0]
  · simp [load_model_core, density_step, size_step, table_step, init_box_size, resolve_step,
      resolve_occlusion, env_none, BaseEnv_init, draws0]
  · simp [load_model_core, make_cube, density_step, size_step, table_step, init_box_size,
      resolve_step, resolve_occlusion, env_none, BaseEnv_init, draws0, np_uniform]
    norm_num
  · rw [e1, e2]
    intro hcontra
    have h2nd := congrArg Prod.snd hcontra
    norm_num at h2nd

/-- C1 amended: the placement x-range is
`[xpos_max - clearanceRangeMax, xpos_max - clearanceRangeMin]` where
`xpos_max = tableFootprint.x/2 - objectHalfExtentX` — the upper bound uses
the configured clearance-range minimum (no per-episode clearance value is
ever sampled).  For table footprint x = 0.45 in Ground mode this is the
degenerate range [0.15, 0.15]. -/
theorem c1_x_range_bounds (s : EnvState) (cc : ControllerConfig) (d : Draws)
    (out : LoadModelOut) (h : load_model s cc d = .ok out) :
    out.sampler.x_range =
      (out.state.table_full_size.x / 2 - out.cube.size.x
          - out.state.object_to_wall_dist_max,
       out.state.table_full_size.x / 2 - out.cube.size.x
          - out.state.object_to_wall_dist_min) ∧
    (s.use_random_occlusion = false → s.occlusion_type = "ground" →
      s.table_full_size.x = 0.45 → out.sampler.x_range = (0.15, 0.15)) := by
  obtain ⟨dens, -, rfl⟩ := load_model_eq_ok h
  constructor
  · simp [load_model_core, make_sampler, make_cube, density_step, size_step, table_step]
  · intro h1 h2 h3
    simp [load_model_core, make_sampler, make_cube, density_step, size_step, table_step,
      resolve_step, resolve_occlusion, h1, h2, h3, init_box_size, np_uniform]
    norm_num

/-- C1 amended witness: instantiation at a concrete default
ground-occlusion episode, where the x-range is the degenerate
[0.15, 0.15]. -/
theorem c1_witness :
    (load_model_core env_ground cc0 draws0 86).sampler.x_range =
      ((load_model_core env_ground cc0 draws0 86).state.table_full_size.x / 2
          - (load_model_core env_ground cc0 draws0 86).cube.size.x
          - (load_model_core env_ground cc0 draws0 86).state.object_to_wall_dist_max,
       (load_model_core env_ground cc0 draws0 86).state.table_full_size.x / 2
          - (load_model_core env_ground cc0 draws0 86).cube.size.x
          - (load_model_core env_ground cc0 draws0 86).state.object_to_wall_dist_min) ∧
    (env_ground.use_random_occlusion = false → env_ground.occlusion_type = "ground" →
      env_ground.table_full_size.x = 0.45 →
      (load_model_core env_ground cc0 draws0 86).sampler.x_range = (0.15, 0.15)) :=
  c1_x_range_bounds env_ground cc0 draws0 _ load_model_env_ground_eval

/-- C2 counterexample: an environment whose table-friction range was
configured inverted (min = 0.4 > 0.3 = max) is not rejected anywhere:
`_load_model` completes successfully and `table_friction_val` receives the
value 0.35 drawn from the inverted interval — no configuration error is
raised before (or at) sampling. -/
theorem c2_counterexample :
    env_inverted.table_friction_max < env_inverted.table_friction_min ∧
    load_model env_inverted cc0 draws0 = .ok (load_model_core env_inverted cc0 draws0 86) ∧
    (load_model_core env_inverted cc0 draws0 86).state.table_friction_val = 0.35 := by
  refine ⟨by norm_num [env_inverted, env_ground, BaseEnv_init, init_box_size], ?_, ?_⟩
  · simp [load_model, np_randint, init_box_size, resolve_step, resolve_occlusion, env_inverted,
      env_ground, BaseEnv_init, draws0, Except.map]
  · simp [load_model_core, density_step, size_step, table_step, init_box_size, resolve_step,
      resolve_occlusion, env_inverted, env_ground, BaseEnv_init, draws0, np_uniform]
    norm_num

/-- C2 amended: no eager range validation exists.  `_load_model` succeeds
exactly when the (discrete) density range is non-inverted — an inverted
range on any continuous quantity is silently accepted and sampled from,
and even an inverted density range only fails at sampling time, inside
the reset, not at configuration-build time. -/
theorem c2_no_eager_validation (s : EnvState) (cc : ControllerConfig) (d : Draws) :
    (∃ out, load_model s cc d = .ok out) ↔
      s.object_density_min ≤ s.object_density_max :=
  load_model_ok_exists_iff s cc d

/-- C3: the size/clearance profile installed by `init_box_size` is exactly
the fixed table: Ground mode gives half-extents (0.15, 0.20, 0.05) and
clearance 0; Side mode gives (0.06, 0.20, 0.06) and clearance 0; every
other mode gives (0.06, 0.20, 0.06) with clearance in [0.05, 0.10].  The
sampled values (uniform draws over the installed ranges) equal the
degenerate profile values, and the clearance range is [0.05, 0.1] in the
remaining modes. -/
theorem c3_occlusion_profiles (s : EnvState) (u : ℚ) (h0 : 0 ≤ u) (h1 : u ≤ 1) :
    (s.occlusion_type = "ground" →
      np_uniform (init_box_size s).object_size_x_min (init_box_size s).object_size_x_max u
        = 0.15 ∧
      np_uniform (init_box_size s).object_size_y_min (init_box_size s).object_size_y_max u
        = 0.20 ∧
      np_uniform (init_box_size s).object_size_z_min (init_box_size s).object_size_z_max u
        = 0.05 ∧
      (init_box_size s).object_to_wall_dist_min = 0 ∧
      (init_box_size s).object_to_wall_dist_max = 0) ∧
    (s.occlusion_type = "side" →
      np_uniform (init_box_size s).object_size_x_min (init_box_size s).object_size_x_max u
        = 0.06 ∧
      np_uniform (init_box_size s).object_size_y_min (init_box_size s).object_size_y_max u
        = 0.20 ∧
      np_uniform (init_box_size s).object_size_z_min (init_box_size s).object_size_z_max u
        = 0.06 ∧
      (init_box_size s).object_to_wall_dist_min = 0 ∧
      (init_box_size s).object_to_wall_dist_max = 0) ∧
    (s.occlusion_type ≠ "ground" → s.occlusion_type ≠ "side" →
      np_uniform (init_box_size s).object_size_x_min (init_box_size s).object_size_x_max u
        = 0.06 ∧
      np_uniform (init_box_size s).object_size_y_min (init_box_size s).object_size_y_max u
        = 0.20 ∧
      np_uniform (init_box_size s).object_size_z_min (init_box_size s).object_size_z_max u
        = 0.06 ∧
      (init_box_size s).object_to_wall_dist_min = 0.05 ∧
      (init_box_size s).object_to_wall_dist_max = 0.1 ∧
      0.05 ≤ np_uniform (init_box_size s).object_to_wall_dist_min
        (init_box_size s).object_to_wall_dist_max u ∧
      np_uniform (init_box_size s).object_to_wall_dist_min
        (init_box_size s).object_to_wall_dist_max u ≤ 0.1) := by
  have hb := np_uniform_mem 0.05 0.1 u (by norm_num) h0 h1
  refine ⟨?_, ?_, ?_⟩
  · intro hg
    simp [init_box_size, hg, np_uniform]
  · intro hs
    simp [init_box_size, hs, np_uniform]
  · intro hg hs
    have e : (init_box_size s).object_to_wall_dist_min = 0.05 ∧
        (init_box_size s).object_to_wall_dist_max = 0.1 := by
      simp [init_box_size, hg, hs]
    refine ⟨?_, ?_, ?_, e.1, e.2, ?_, ?_⟩
    · simp [init_box_size, hg, hs, np_uniform]
    · simp [init_box_size, hg, hs, np_uniform]
    · simp [init_box_size, hg, hs, np_uniform]
    · rw [e.1, e.2]; exact hb.1
    · rw [e.1, e.2]; exact hb.2

/-- C3 witness: instantiation at the default no-occlusion environment's
pre-profile state and the unit draw 1/2. -/
theorem c3_witness :
    (env_none.occlusion_type = "ground" →
      np_uniform (init_box_size env_none).object_size_x_min
        (init_box_size env_none).object_size_x_max (1/2) = 0.15 ∧
      np_uniform (init_box_size env_none).object_size_y_min
        (init_box_size env_none).object_size_y_max (1/2) = 0.20 ∧
      np_uniform (init_box_size env_none).object_size_z_min
        (init_box_size env_none).object_size_z_max (1/2) = 0.05 ∧
      (init_box_size env_none).object_to_wall_dist_min = 0 ∧
      (init_box_size env_none).object_to_wall_dist_max = 0) ∧
    (env_none.occlusion_type = "side" →
      np_uniform (init_box_size env_none).object_size_x_min
        (init_box_size env_none).object_size_x_max (1/2) = 0.06 ∧
      np_uniform (init_box_size env_none).object_size_y_min
        (init_box_size env_none).object_size_y_max (1/2) = 0.20 ∧
      np_uniform (init_box_size env_none).object_size_z_min
        (init_box_size env_none).object_size_z_max (1/2) = 0.06 ∧
      (init_box_size env_none).object_to_wall_dist_min = 0 ∧
      (init_box_size env_none).object_to_wall_dist_max = 0) ∧
    (env_none.occlusion_type ≠ "ground" → env_none.occlusion_type ≠ "side" →
      np_uniform (init_box_size env_none).object_size_x_min
        (init_box_size env_none).object_size_x_max (1/2) = 0.06 ∧
      np_uniform (init_box_size env_none).object_size_y_min
        (init_box_size env_none).object_size_y_max (1/2) = 0.20 ∧
      np_uniform (init_box_size env_none).object_size_z_min
        (init_box_size env_none).object_size_z_max (1/2) = 0.06 ∧
      (init_box_size env_none).object_to_wall_dist_min = 0.05 ∧
      (init_box_size env_none).object_to_wall_dist_max = 0.1 ∧
      0.05 ≤ np_uniform (init_box_size env_none).object_to_wall_dist_min
        (init_box_size env_none).object_to_wall_dist_max (1/2) ∧
      np_uniform (init_box_size env_none).object_to_wall_dist_min
        (init_box_size env_none).object_to_wall_dist_max (1/2) ≤ 0.1) :=
  c3_occlusion_profiles env_none (1/2) (by norm_num) (by norm_num)

/-- C4: occlusion-mode resolution returns the requested mode unchanged when
randomization is off; with randomization on, the result is drawn from the
list ["ground", "side", "none"], every outcome lies in that list, and each
of the three modes is produced by exactly one of the three equally likely
draw indices (uniformity over exactly the three variants). -/
theorem c4_mode_resolution :
    (∀ r : String, ∀ c : Fin 3, resolve_occlusion r false c = r) ∧
    (∀ r : String, ∀ c : Fin 3, resolve_occlusion r true c ∈ occlusion_choices) ∧
    (∀ r : String,
      ((Finset.univ : Finset (Fin 3)).filter
        (fun c => resolve_occlusion r true c = "ground")).card = 1 ∧
      ((Finset.univ : Finset (Fin 3)).filter
        (fun c => resolve_occlusion r true c = "side")).card = 1 ∧
      ((Finset.univ : Finset (Fin 3)).filter
        (fun c => resolve_occlusion r true c = "none")).card = 1) := by
  refine ⟨fun r c => rfl, fun r c => ?_, fun r => ?_⟩
  · simp only [resolve_occlusion, if_true]
    exact occlusion_choices.get_mem c.1 c.2
  · refine ⟨?_, ?_, ?_⟩ <;> · simp only [resolve_occlusion, if_true]
                              decide

/-- C5: every quantity whose configured range is degenerate (`min = max`)
is sampled deterministically to exactly that shared value — including the
discrete density draw — and a degenerate density range is supported, not an
error (`_load_model` succeeds for every draw).  The object-size conjuncts
need no hypotheses because `init_box_size` installs degenerate size ranges
in every mode. -/
theorem c5_degenerate_deterministic (s : EnvState) (cc : ControllerConfig) (d : Draws)
    (out : LoadModelOut)
    (hf : s.table_friction_min = s.table_friction_max)
    (hox : s.table_offset_x_min = s.table_offset_x_max)
    (hoz : s.table_offset_z_min = s.table_offset_z_max)
    (hct : s.controller_max_translation_min = s.controller_max_translation_max)
    (hcr : s.controller_max_rotation_min = s.controller_max_rotation_max)
    (hde : s.object_density_min = s.object_density_max)
    (hg : s.gripper_friction_min = s.gripper_friction_max)
    (h : load_model s cc d = .ok out) :
    out.state.table_friction_val = s.table_friction_min ∧
    out.state.table_offset.x = s.table_offset_x_min ∧
    out.state.table_offset.z = s.table_offset_z_min ∧
    out.state.object_size_x_val = out.state.object_size_x_min ∧
    out.state.object_size_y_val = out.state.object_size_y_min ∧
    out.state.object_size_z_val = out.state.object_size_z_min ∧
    out.state.object_density_val = s.object_density_min ∧
    (cc.max_translation.isSome = true →
      out.controller_config.max_translation = some s.controller_max_translation_min) ∧
    (cc.max_rotation.isSome = true →
      out.controller_config.max_rotation = some s.controller_max_rotation_min) ∧
    (load_robots s d.u_gripper_friction).2.x = s.gripper_friction_min ∧
    (∀ d2 : Draws, ∃ out2, load_model s cc d2 = .ok out2) := by
  obtain ⟨dens, hr, rfl⟩ := load_model_eq_ok h
  rw [← hde, np_randint_self] at hr
  obtain rfl : dens = s.object_density_min := by
    simpa using hr.symm
  have hx := (init_box_size_sizes_degenerate (resolve_step s d)).1
  have hy := (init_box_size_sizes_degenerate (resolve_step s d)).2.1
  have hz := (init_box_size_sizes_degenerate (resolve_step s d)).2.2
  have hsucc : ∀ d2 : Draws, ∃ out2, load_model s cc d2 = .ok out2 := by
    intro d2
    rw [load_model_ok_exists_iff]
    omega
  rcases hmt : cc.max_translation with - | v <;>
    rcases hmr : cc.max_rotation with - | w <;>
      simp [load_model_core, apply_controller, density_step, size_step, table_step,
        load_robots, hmt, hmr, hf, hox, hoz, hct, hcr, hg, hx, hy, hz, np_uniform_self, hsucc]

/-- C5 witness: the default ground-occlusion environment has every range
degenerate; a concrete episode returns exactly the configured values. -/
theorem c5_witness :
    (load_model_core env_ground cc0 draws0 86).state.table_friction_val =
      env_ground.table_friction_min ∧
    (load_model_core env_ground cc0 draws0 86).state.table_offset.x =
      env_ground.table_offset_x_min ∧
    (load_model_core env_ground cc0 draws0 86).state.table_offset.z =
      env_ground.table_offset_z_min ∧
    (load_model_core env_ground cc0 draws0 86).state.object_size_x_val =
      (load_model_core env_ground cc0 draws0 86).state.object_size_x_min ∧
    (load_model_core env_ground cc0 draws0 86).state.object_size_y_val =
      (load_model_core env_ground cc0 draws0 86).state.object_size_y_min ∧
    (load_model_core env_ground cc0 draws0 86).state.object_size_z_val =
      (load_model_core env_ground cc0 draws0 86).state.object_size_z_min ∧
    (load_model_core env_ground cc0 draws0 86).state.object_density_val =
      env_ground.object_density_min ∧
    (cc0.max_translation.isSome = true →
      (load_model_core env_ground cc0 draws0 86).controller_config.max_translation =
        some env_ground.controller_max_translation_min) ∧
    (cc0.max_rotation.isSome = true →
      (load_model_core env_ground cc0 draws0 86).controller_config.max_rotation =
        some env_ground.controller_max_rotation_min) ∧
    (load_robots env_ground draws0.u_gripper_friction).2.x = env_ground.gripper_friction_min ∧
    (∀ d2 : Draws, ∃ out2, load_model env_ground cc0 d2 = .ok out2) :=
  c5_degenerate_deterministic env_ground cc0 draws0 _
    (by simp [env_ground, BaseEnv_init, init_box_size])
    (by simp [env_ground, BaseEnv_init, init_box_size])
    (by simp [env_ground, BaseEnv_init, init_box_size])
    (by simp [env_ground, BaseEnv_init, init_box_size])
    (by simp [env_ground, BaseEnv_init, init_box_size])
    (by simp [env_ground, BaseEnv_init, init_box_size])
    (by simp [env_ground, BaseEnv_init, init_box_size])
    load_model_env_ground_eval

/-- C6: with unit draws in [0, 1] and non-inverted configured ranges, every
sampled value lies in its closed `[min, max]` interval: table friction,
table offset x and z, the three object half-extents (against the installed
profile ranges), the discrete density, the conditionally written controller
limits, and the gripper friction. -/
theorem c6_samples_within_ranges (s : EnvState) (cc : ControllerConfig) (d : Draws)
    (out : LoadModelOut) (h : load_model s cc d = .ok out) (hd : DrawsInUnit d)
    (hf : s.table_friction_min ≤ s.table_friction_max)
    (hox : s.table_offset_x_min ≤ s.table_offset_x_max)
    (hoz : s.table_offset_z_min ≤ s.table_offset_z_max)
    (hct : s.controller_max_translation_min ≤ s.controller_max_translation_max)
    (hcr : s.controller_max_rotation_min ≤ s.controller_max_rotation_max)
    (hg : s.gripper_friction_min ≤ s.gripper_friction_max) :
    (s.table_friction_min ≤ out.state.table_friction_val ∧
      out.state.table_friction_val ≤ s.table_friction_max) ∧
    (s.table_offset_x_min ≤ out.state.table_offset.x ∧
      out.state.table_offset.x ≤ s.table_offset_x_max) ∧
    (s.table_offset_z_min ≤ out.state.table_offset.z ∧
      out.state.table_offset.z ≤ s.table_offset_z_max) ∧
    (out.state.object_size_x_min ≤ out.state.object_size_x_val ∧
      out.state.object_size_x_val ≤ out.state.object_size_x_max) ∧
    (out.state.object_size_y_min ≤ out.state.object_size_y_val ∧
      out.state.object_size_y_val ≤ out.state.object_size_y_max) ∧
    (out.state.object_size_z_min ≤ out.state.object_size_z_val ∧
      out.state.object_size_z_val ≤ out.state.object_size_z_max) ∧
    (s.object_density_min ≤ out.state.object_density_val ∧
      out.state.object_density_val ≤ s.object_density_max) ∧
    (cc.max_translation.isSome = true →
      ∃ v, out.controller_config.max_translation = some v ∧
        s.controller_max_translation_min ≤ v ∧ v ≤ s.controller_max_translation_max) ∧
    (cc.max_rotation.isSome = true →
      ∃ v, out.controller_config.max_rotation = some v ∧
        s.controller_max_rotation_min ≤ v ∧ v ≤ s.controller_max_rotation_max) ∧
    (s.gripper_friction_min ≤ (load_robots s d.u_gripper_friction).2.x ∧
      (load_robots s d.u_gripper_friction).2.x ≤ s.gripper_friction_max) := by
  obtain ⟨dens, hr, rfl⟩ := load_model_eq_ok h
  obtain ⟨u1a, u1b, u2a, u2b, u3a, u3b, u4a, u4b, u5a, u5b, u6a, u6b, u7a, u7b,
    u8a, u8b, u9a, u9b⟩ := hd
  have hdens := np_randint_mem _ _ _ _ hr
  have hx := (init_box_size_sizes_degenerate (resolve_step s d)).1
  have hy := (init_box_size_sizes_degenerate (resolve_step s d)).2.1
  have hz := (init_box_size_sizes_degenerate (resolve_step s d)).2.2
  refine ⟨?_, ?_, ?_, ?_, ?_, ?_, ?_, ?_, ?_, ?_⟩
  · simpa [load_model_core, density_step, size_step, table_step] using
      np_uniform_mem _ _ _ hf u3a u3b
  · simpa [load_model_core, density_step, size_step, table_step] using
      np_uniform_mem _ _ _ hox u4a u4b
  · simpa [load_model_core, density_step, size_step, table_step] using
      np_uniform_mem _ _ _ hoz u5a u5b
  · simpa [load_model_core, density_step, size_step, table_step] using
      np_uniform_mem _ _ _ (le_of_eq hx) u6a u6b
  · simpa [load_model_core, density_step, size_step, table_step] using
      np_uniform_mem _ _ _ (le_of_eq hy) u7a u7b
  · simpa [load_model_core, density_step, size_step, table_step] using
      np_uniform_mem _ _ _ (le_of_eq hz) u8a u8b
  · have hdv : (load_model_core s cc d dens).state.object_density_val = dens := by
      simp [load_model_core, density_step, size_step, table_step]
    rw [hdv]
    omega
  · intro hsome
    refine ⟨np_uniform s.controller_max_translation_min s.controller_max_translation_max
      d.u_max_translation, ?_, ?_, ?_⟩
    · rcases hmr : cc.max_rotation with - | w <;>
        simp [load_model_core, apply_controller, hsome, hmr]
    · exact (np_uniform_mem _ _ _ hct u1a u1b).1
    · exact (np_uniform_mem _ _ _ hct u1a u1b).2
  · intro hsome
    refine ⟨np_uniform s.controller_max_rotation_min s.controller_max_rotation_max
      d.u_max_rotation, ?_, ?_, ?_⟩
    · rcases hmt : cc.max_translation with - | v <;>
        simp [load_model_core, apply_controller, hsome, hmt]
    · exact (np_uniform_mem _ _ _ hcr u2a u2b).1
    · exact (np_uniform_mem _ _ _ hcr u2a u2b).2
  · simpa [load_robots] using np_uniform_mem _ _ _ hg u9a u9b

/-- C6 witness: instantiation at a concrete default ground-occlusion
episode, whose draws all equal 1/2 and whose ranges are all degenerate
(hence trivially non-inverted). -/
theorem c6_witness :
    (env_ground.table_friction_min ≤
        (load_model_core env_ground cc0 draws0 86).state.table_friction_val ∧
      (load_model_core env_ground cc0 draws0 86).state.table_friction_val ≤
        env_ground.table_friction_max) ∧
    (env_ground.table_offset_x_min ≤
        (load_model_core env_ground cc0 draws0 86).state.table_offset.x ∧
      (load_model_core env_ground cc0 draws0 86).state.table_offset.x ≤
        env_ground.table_offset_x_max) ∧
    (env_ground.table_offset_z_min ≤
        (load_model_core env_ground cc0 draws0 86).state.table_offset.z ∧
      (load_model_core env_ground cc0 draws0 86).state.table_offset.z ≤
        env_ground.table_offset_z_max) ∧
    ((load_model_core env_ground cc0 draws0 86).state.object_size_x_min ≤
        (load_model_core env_ground cc0 draws0 86).state.object_size_x_val ∧
      (load_model_core env_ground cc0 draws0 86).state.object_size_x_val ≤
        (load_model_core env_ground cc0 draws0 86).state.object_size_x_max) ∧
    ((load_model_core env_ground cc0 draws0 86).state.object_size_y_min ≤
        (load_model_core env_ground cc0 draws0 86).state.object_size_y_val ∧
      (load_model_core env_ground cc0 draws0 86).state.object_size_y_val ≤
        (load_model_core env_ground cc0 draws0 86).state.object_size_y_max) ∧
    ((load_model_core env_ground cc0 draws0 86).state.object_size_z_min ≤
        (load_model_core env_ground cc0 draws0 86).state.object_size_z_val ∧
      (load_model_core env_ground cc0 draws0 86).state.object_size_z_val ≤
        (load_model_core env_ground cc0 draws0 86).state.object_size_z_max) ∧
    (env_ground.object_density_min ≤
        (load_model_core env_ground cc0 draws0 86).state.object_density_val ∧
      (load_model_core env_ground cc0 draws0 86).state.object_density_val ≤
        env_ground.object_density_max) ∧
    (cc0.max_translation.isSome = true →
      ∃ v, (load_model_core env_ground cc0 draws0 86).controller_config.max_translation =
          some v ∧
        env_ground.controller_max_translation_min ≤ v ∧
        v ≤ env_ground.controller_max_translation_max) ∧
    (cc0.max_rotation.isSome = true →
      ∃ v, (load_model_core env_ground cc0 draws0 86).controller_config.max_rotation =
          some v ∧
        env_ground.controller_max_rotation_min ≤ v ∧
        v ≤ env_ground.controller_max_rotation_max) ∧
    (env_ground.gripper_friction_min ≤
        (load_robots env_ground draws0.u_gripper_friction).2.x ∧
      (load_robots env_ground draws0.u_gripper_friction).2.x ≤
        env_ground.gripper_friction_max) :=
  c6_samples_within_ranges env_ground cc0 draws0 _ load_model_env_ground_eval
    (by norm_num [DrawsInUnit, draws0])
    (by simp [env_ground, BaseEnv_init, init_box_size])
    (by simp [env_ground, BaseEnv_init, init_box_size])
    (by simp [env_ground, BaseEnv_init, init_box_size])
    (by simp [env_ground, BaseEnv_init, init_box_size])
    (by simp [env_ground, BaseEnv_init, init_box_size])
    (by simp [env_ground, BaseEnv_init, init_box_size])

/-- C10: in `_load_robots`, only the first gripper-friction component is
randomized (drawn from the configured range); the second and third
components are the fixed constants 0.015 and 0.0003 for every
configuration. -/
theorem c10_gripper_friction (s : EnvState) (u : ℚ)
    (h0 : 0 ≤ u) (h1 : u ≤ 1)
    (hg : s.gripper_friction_min ≤ s.gripper_friction_max) :
    (load_robots s u).2.y = 0.015 ∧
    (load_robots s u).2.z = 0.0003 ∧
    (load_robots s u).2.x = np_uniform s.gripper_friction_min s.gripper_friction_max u ∧
    s.gripper_friction_min ≤ (load_robots s u).2.x ∧
    (load_robots s u).2.x ≤ s.gripper_friction_max := by
  have hb := np_uniform_mem s.gripper_friction_min s.gripper_friction_max u hg h0 h1
  refine ⟨rfl, rfl, rfl, ?_, ?_⟩
  · simpa [load_robots] using hb.1
  · simpa [load_robots] using hb.2

/-- C10 witness: instantiation at the default environment with unit draw
1/2: the fixed components are 0.015 and 0.0003 and the sampled component
lies within the configured range. -/
theorem c10_witness :
    (load_robots env_ground (1/2)).2.y = 0.015 ∧
    (load_robots env_ground (1/2)).2.z = 0.0003 ∧
    (load_robots env_ground (1/2)).2.x =
      np_uniform env_ground.gripper_friction_min env_ground.gripper_friction_max (1/2) ∧
    env_ground.gripper_friction_min ≤ (load_robots env_ground (1/2)).2.x ∧
    (load_robots env_ground (1/2)).2.x ≤ env_ground.gripper_friction_max :=
  c10_gripper_friction env_ground (1/2) (by norm_num) (by norm_num)
    (by simp [env_ground, BaseEnv_init, init_box_size])

end Ungraspable
